import Mathlib

set_option maxHeartbeats 1000000

/-! Shallow embedding of the authentication and session subsystem of the
rust-blog repository: the shared error taxonomy (src/errors.rs), the GitHub
OAuth authenticator (src/auth/github.rs) and the Redis-backed session store
(src/auth/redis.rs).  Remote I/O (the reqwest HTTP client, the Redis
connection pool and the Redis commands) is modelled by explicit environment
records whose fields describe the outcome of each remote interaction, in the
order in which the source performs them. -/

/-- Error taxonomy from src/errors.rs (enum Error). -/
inductive Error where
  | InitializationError (msg : String)
  | ConnectionError (msg : String)
  | SerializationError (msg : String)
  | PermissionDenied (msg : String)
  | NotFound (msg : String)
  | InvalidInput (msg : String)
  deriving DecidableEq, Repr

/-- Display rendering of Error, following the thiserror format attributes in
src/errors.rs (this is what err.to_string() produces in the source). -/
def Error.render : Error → String
  | .InitializationError m => "initialization error: " ++ m
  | .ConnectionError m => "connection error: " ++ m
  | .SerializationError m => "serialization error: " ++ m
  | .PermissionDenied m => "permission denied: " ++ m
  | .NotFound m => m ++ " not found"
  | .InvalidInput m => "invalid input: " ++ m

/-- User record from src/auth.rs (struct User); ids are u64 in the source,
modelled as Nat (the u64 range is stated explicitly where it matters). -/
structure User where
  id : Nat
  name : String
  avatar_url : String
  login : String
  deriving DecidableEq, Repr

/-- Session record from src/auth.rs (struct Session). -/
structure Session where
  user : User
  token : String
  deriving DecidableEq, Repr

/-- Parsed token-exchange response from src/auth/github.rs
(struct GithubAccessToken); the serde defaults make every field default to
the empty string when absent from the JSON body. -/
structure GithubAccessToken where
  access_token : String
  error : String
  error_description : String
  deriving DecidableEq, Repr

/-- Parsed profile response from src/auth/github.rs (struct GithubUser). -/
structure GithubUser where
  login : String
  id : Nat
  name : String
  avatar_url : String
  deriving DecidableEq, Repr

/-- GithubUser::to_user from src/auth/github.rs. -/
def GithubUser.to_user (g : GithubUser) : User :=
  { id := g.id, name := g.name, avatar_url := g.avatar_url, login := g.login }

/-- Parsed organization entry from src/auth/github.rs (struct GithubOrg). -/
structure GithubOrg where
  login : String
  deriving DecidableEq, Repr

/-- Parsed organization list from src/auth/github.rs (struct GithubOrgs). -/
structure GithubOrgs where
  orgs : List GithubOrg
  deriving DecidableEq, Repr

/-- Outcome of one remote HTTP interaction as the source observes it: the
send() call can fail with a transport error, the json() call can fail with a
parse error, or a value of the expected shape is parsed out of the body.  The
HTTP status code of a parsed response is carried but, exactly as in the
source (which never inspects a status), it influences nothing. -/
inductive HttpResult (α : Type) where
  | sendErr (msg : String)
  | jsonErr (msg : String)
  | ok (status : Nat) (val : α)
  deriving DecidableEq, Repr

instance {ε α : Type} [DecidableEq ε] [DecidableEq α] :
    DecidableEq (Except ε α) := fun x y =>
  match x, y with
  | .ok a, .ok b =>
    if h : a = b then .isTrue (h ▸ rfl) else .isFalse (fun he => h (Except.ok.inj he))
  | .error a, .error b =>
    if h : a = b then .isTrue (h ▸ rfl) else .isFalse (fun he => h (Except.error.inj he))
  | .ok _, .error _ => .isFalse (fun he => Except.noConfusion he)
  | .error _, .ok _ => .isFalse (fun he => Except.noConfusion he)

/-- Environment of one GithubAuthenticator::login call: the outcome of the
three provider requests, in source order, and the outcome of the
Repo::save delegation. -/
structure LoginEnv where
  tokenResp : HttpResult GithubAccessToken
  userResp : HttpResult GithubUser
  orgsResp : HttpResult GithubOrgs
  saveResult : Except Error String
  deriving DecidableEq, Repr

/-- Configuration state of GithubAuthenticator from src/auth/github.rs (the
Arc of dyn Repo field is not configuration data; the store is modelled through
LoginEnv.saveResult). -/
structure GithubAuthenticator where
  org : String
  client_id : String
  client_secret : String
  url : String
  api_url : String
  base_url : String
  deriving DecidableEq, Repr

/-- GithubAuthenticator::new from src/auth/github.rs: validates the three
credentials and fixes the provider endpoints. -/
def GithubAuthenticator.new (client_id client_secret org base_url : String) :
    Except Error GithubAuthenticator :=
  if client_id.isEmpty then
    .error (.InitializationError "Client ID is empty")
  else if client_secret.isEmpty then
    .error (.InitializationError "Client Secret is empty")
  else if org.isEmpty then
    .error (.InitializationError "Organization is empty")
  else
    .ok { org := org, client_id := client_id, client_secret := client_secret,
          url := "https://github.com", api_url := "https://api.github.com",
          base_url := base_url }

/-- GithubAuthenticator::start_login from src/auth/github.rs: the format!
call building the authorization URL. -/
def GithubAuthenticator.start_login (a : GithubAuthenticator) :
    Except Error String :=
  .ok (a.url ++ "/login/oauth/authorize?client_id=" ++ a.client_id ++
    "&scope=read:user,read:org&redirect_uri=" ++ a.base_url ++
    "/auth/login/callback")

/-- GithubAuthenticator::login from src/auth/github.rs, instrumented with a
Boolean recording whether the self.repo.save call was reached.  The returned
value is the Session result exactly as the source computes it; the flag is
true precisely in the branch where the source invokes the store. -/
def GithubAuthenticator.loginWithTrace (a : GithubAuthenticator)
    (env : LoginEnv) : Except Error Session × Bool :=
  match env.tokenResp with
  | .sendErr e => (.error (.ConnectionError ("getting access_token: " ++ e)), false)
  | .jsonErr e => (.error (.SerializationError ("reading access_token: " ++ e)), false)
  | .ok _ gh_token =>
    if !gh_token.error.isEmpty then
      (.error (.PermissionDenied
        (gh_token.error_description ++ " (" ++ gh_token.error ++ ")")), false)
    else if gh_token.access_token.isEmpty then
      (.error (.PermissionDenied "access token is empty"), false)
    else
      match env.userResp with
      | .sendErr e => (.error (.ConnectionError ("getting user: " ++ e)), false)
      | .jsonErr e => (.error (.SerializationError ("reading user: " ++ e)), false)
      | .ok _ gh_user =>
        match env.orgsResp with
        | .sendErr e => (.error (.ConnectionError ("getting org: " ++ e)), false)
        | .jsonErr e => (.error (.SerializationError ("reading org: " ++ e)), false)
        | .ok _ gh_orgs =>
          if !(gh_orgs.orgs.any (fun org => org.login == a.org)) then
            (.error (.PermissionDenied ("not a member of " ++ a.org)), false)
          else
            let user := gh_user.to_user
            match env.saveResult with
            | .ok token => (.ok { user := user, token := token }, true)
            | .error err => (.error (.ConnectionError err.render), true)

/-- GithubAuthenticator::login as the caller sees it: the Session result of
the instrumented protocol run. -/
def GithubAuthenticator.login (a : GithubAuthenticator) (env : LoginEnv) :
    Except Error Session :=
  (a.loginWithTrace env).1

/-- Provider-side success conditions of a login attempt as claim C1
enumerates them: token exchange sent and parsed with empty provider error
and non-empty access token, profile fetched and parsed, memberships fetched
and parsed, and the configured organization appearing among them. -/
def providerStepsSucceed (a : GithubAuthenticator) (env : LoginEnv) : Prop :=
  (∃ st gt, env.tokenResp = .ok st gt ∧ gt.error = "" ∧ gt.access_token ≠ "") ∧
  (∃ su gu, env.userResp = .ok su gu) ∧
  (∃ so go, env.orgsResp = .ok so go ∧ ∃ o ∈ go.orgs, o.login = a.org)

/-- Authenticator configuration used by the C1 counterexample. -/
def c1auth : GithubAuthenticator :=
  { org := "myorg", client_id := "cid", client_secret := "sec",
    url := "https://github.com", api_url := "https://api.github.com",
    base_url := "https://blog.example" }

/-- Login environment used by the C1 counterexample: every provider step
succeeds and the user is a member of the configured organization, but the
store save fails. -/
def c1env : LoginEnv :=
  { tokenResp := .ok 200 ⟨"tok_abc", "", ""⟩,
    userResp := .ok 200 ⟨"octocat", 123456, "The Octocat", "https://example/a.png"⟩,
    orgsResp := .ok 200 ⟨[⟨"myorg"⟩]⟩,
    saveResult := .error (.ConnectionError "redis down") }

/-- Specification-level decimal digit list of a natural number, most
significant digit first; proved below to agree with the fuel-based
Nat.toDigitsCore used by Nat.repr. -/
def digitsSpec (n : Nat) : List Char :=
  if h : n / 10 = 0 then [Nat.digitChar (n % 10)]
  else digitsSpec (n / 10) ++ [Nat.digitChar (n % 10)]
termination_by n
decreasing_by omega

/-- Left fold of Rust u64 digit parsing: consumes decimal digit characters,
failing on the first non-digit. -/
def parseDigitsAux : List Char → Nat → Option Nat
  | [], acc => some acc
  | c :: cs, acc =>
    if c.isDigit then parseDigitsAux cs (acc * 10 + (c.toNat - 48)) else none

/-- Model of str::parse::<u64> from Rust as the source uses it on the first
stored segment: an optional leading plus sign, then one or more decimal
digits, rejecting the empty string, any other character and values outside
the u64 range. -/
def parseU64 (s : String) : Option Nat :=
  let cs :=
    match s.data with
    | [] => ([] : List Char)
    | c :: rest => if c = '+' then rest else c :: rest
  match cs with
  | [] => none
  | _ =>
    match parseDigitsAux cs 0 with
    | none => none
    | some n => if n < 18446744073709551616 then some n else none

/-- Splits a character list at the first occurrence of c, when there is
one. -/
def breakAtChar (c : Char) : List Char → Option (List Char × List Char)
  | [] => none
  | x :: xs =>
    if x = c then some ([], xs)
    else
      match breakAtChar c xs with
      | none => none
      | some (pre, post) => some (x :: pre, post)

/-- Model of Rust str::splitn(n, c): at most n pieces, the last piece
carrying the unsplit remainder; splitn(0) yields nothing and splitn over a
delimiter-free string yields the whole string as its single piece. -/
def rustSplitn (n : Nat) (c : Char) (s : List Char) : List (List Char) :=
  match n with
  | 0 => []
  | m+1 =>
    if m = 0 then [s]
    else
      match breakAtChar c s with
      | none => [s]
      | some (pre, post) => pre :: rustSplitn m c post

/-- Serialization of a User in RedisRepo::save from src/auth/redis.rs: the
format! call joining id, login, avatar_url and name with pipes, in that
order, where the id is rendered in decimal. -/
def serializeUser (u : User) : String :=
  Nat.repr u.id ++ "|" ++ u.login ++ "|" ++ u.avatar_url ++ "|" ++ u.name

/-- Deserialization of a stored record in RedisRepo::get from
src/auth/redis.rs: splitn(4, pipe), the field-count check, and the u64
parse of the id segment. -/
def deserializeUser (data : String) : Except Error User :=
  match rustSplitn 4 '|' data.data with
  | [s0, s1, s2, s3] =>
    match parseU64 (String.mk s0) with
    | none => .error (.SerializationError "Invalid ID format")
    | some id =>
      .ok { id := id, login := String.mk s1, avatar_url := String.mk s2,
            name := String.mk s3 }
  | _ => .error (.SerializationError "Invalid data format")

/-- Record held by the backing key-value store under a token: the serialized
payload and the time-to-live attached to it, if any (Redis SET stores the
value with no TTL; EXPIRE then attaches one). -/
structure StoredRecord where
  data : String
  ttl : Option Int
  deriving DecidableEq, Repr

/-- Backing store content as an association list from tokens to records. -/
abbrev Store := List (String × StoredRecord)

/-- Redis GET: the record under a key, when present. -/
def storeLookup : Store → String → Option StoredRecord
  | [], _ => none
  | (k, r) :: rest, key => if k = key then some r else storeLookup rest key

/-- Redis SET: binds key to the payload, discarding any previous value and,
as Redis does, any previously attached TTL. -/
def storeSet : Store → String → String → Store
  | [], key, d => [(key, { data := d, ttl := none })]
  | (k, r) :: rest, key, d =>
    if k = key then (key, { data := d, ttl := none }) :: rest
    else (k, r) :: storeSet rest key d

/-- Redis EXPIRE: attaches a TTL to the record under the key, when the key
exists; a no-op otherwise. -/
def storeExpire : Store → String → Int → Store
  | [], _, _ => []
  | (k, r) :: rest, key, t =>
    if k = key then (k, { data := r.data, ttl := some t }) :: rest
    else (k, r) :: storeExpire rest key t

/-- Redis DEL: removes the binding for the key, if any. -/
def storeDel : Store → String → Store
  | [], _ => []
  | (k, r) :: rest, key =>
    if k = key then rest else (k, r) :: storeDel rest key

/-- Configuration of RedisRepo from src/auth/redis.rs: the configured
session TTL (the connection pool is modelled through the per-operation
environments). -/
structure RedisRepo where
  ttl : Int
  deriving DecidableEq, Repr

/-- Environment of one RedisRepo::save call: outcome of the pool
acquisition, the freshly generated UUID token, and the outcomes of the SET
and EXPIRE commands (some message = the command failed with that error and
did not take effect). -/
structure SaveEnv where
  poolErr : Option String
  token : String
  setErr : Option String
  expireErr : Option String
  deriving DecidableEq, Repr

/-- RedisRepo::save from src/auth/redis.rs as a state transition on the
backing store: pool acquisition, token generation, the serializing SET and,
only after SET succeeded, EXPIRE with the configured TTL. -/
def RedisRepo.save (r : RedisRepo) (env : SaveEnv) (user : User)
    (st : Store) : Except Error String × Store :=
  match env.poolErr with
  | some e => (.error (.ConnectionError e), st)
  | none =>
    let token := env.token
    let data := serializeUser user
    match env.setErr with
    | some e => (.error (.ConnectionError e), st)
    | none =>
      let st2 := storeSet st token data
      match env.expireErr with
      | some e => (.error (.ConnectionError e), st2)
      | none => (.ok token, storeExpire st2 token r.ttl)

/-- Environment of one RedisRepo::get call: outcome of the pool acquisition
and of the GET command transport (a missing key is not a transport failure;
it is modelled by the store content itself). -/
structure GetEnv where
  poolErr : Option String
  getErr : Option String
  deriving DecidableEq, Repr

/-- RedisRepo::get from src/auth/redis.rs: pool acquisition mapped to a
connection error, every GET command failure — a missing (or expired, hence
absent) key converting nil to String as much as a transport failure —
mapped by the source's map_err to PermissionDenied no session, then the
splitn deserialization of the stored payload. -/
def RedisRepo.get (env : GetEnv) (st : Store) (token : String) :
    Except Error User :=
  match env.poolErr with
  | some e => .error (.ConnectionError e)
  | none =>
    match env.getErr with
    | some _ => .error (.PermissionDenied "no session")
    | none =>
      match storeLookup st token with
      | none => .error (.PermissionDenied "no session")
      | some r => deserializeUser r.data

/-- Environment of one RedisRepo::delete call. -/
structure DelEnv where
  poolErr : Option String
  delErr : Option String
  deriving DecidableEq, Repr

/-- RedisRepo::delete from src/auth/redis.rs: pool acquisition and the DEL
command, both mapped to connection errors on failure. -/
def RedisRepo.delete (env : DelEnv) (st : Store) (token : String) :
    Except Error Unit × Store :=
  match env.poolErr with
  | some e => (.error (.ConnectionError e), st)
  | none =>
    match env.delErr with
    | some e => (.error (.ConnectionError e), st)
    | none => (.ok (), storeDel st token)

/-- User fixture used by the C4 counterexample and witness. -/
def c4user : User :=
  { id := 1, name := "Jo", avatar_url := "http://x", login := "jo" }

/-- C8: for every successfully constructed authenticator, start_login
returns Ok with the deterministic authorization URL whose client_id query
parameter is the configured client id and whose redirect_uri is the
configured base URL followed by /auth/login/callback. -/
theorem c8_start_login_url (cid cs org burl : String) (a : GithubAuthenticator)
    (h : GithubAuthenticator.new cid cs org burl = .ok a) :
    a.start_login = .ok ("https://github.com/login/oauth/authorize?client_id=" ++ cid ++
      "&scope=read:user,read:org&redirect_uri=" ++ burl ++ "/auth/login/callback") := by
  unfold GithubAuthenticator.new at h
  split at h
  · exact absurd h (by simp)
  · split at h
    · exact absurd h (by simp)
    · split at h
      · exact absurd h (by simp)
      · cases h
        rfl

/-- C8 witness: the configuration of the repository's own start_login unit
test produces exactly the expected URL. -/
theorem c8_start_login_url_witness :
    GithubAuthenticator.start_login
      { org := "test_org", client_id := "test_client_id",
        client_secret := "test_client_secret", url := "https://github.com",
        api_url := "https://api.github.com", base_url := "website.local" } =
    .ok ("https://github.com/login/oauth/authorize?client_id=" ++ "test_client_id" ++
      "&scope=read:user,read:org&redirect_uri=" ++ "website.local" ++
      "/auth/login/callback") :=
  c8_start_login_url "test_client_id" "test_client_secret" "test_org"
    "website.local" _ rfl

/-- C9: GithubAuthenticator::new fails with an InitializationError whenever
the client id, the client secret or the organization is empty, and returns
Ok for all non-empty values of the three. -/
theorem c9_new_validation (cid cs org burl : String) :
    ((cid = "" ∨ cs = "" ∨ org = "") →
      ∃ m, GithubAuthenticator.new cid cs org burl = .error (.InitializationError m)) ∧
    (cid ≠ "" → cs ≠ "" → org ≠ "" →
      ∃ a, GithubAuthenticator.new cid cs org burl = .ok a) := by
  constructor
  · intro h
    unfold GithubAuthenticator.new
    split
    · exact ⟨_, rfl⟩
    · split
      · exact ⟨_, rfl⟩
      · split
        · exact ⟨_, rfl⟩
        · rcases h with h | h | h <;> simp_all [String.isEmpty_iff]
  · intro h1 h2 h3
    simp [GithubAuthenticator.new, String.isEmpty_iff, h1, h2, h3]

/-- C9 witness: an empty client id is rejected and fully non-empty
credentials are accepted, at concrete inputs. -/
theorem c9_new_validation_witness :
    (∃ m, GithubAuthenticator.new "" "s" "o" "b" = .error (.InitializationError m)) ∧
    (∃ a, GithubAuthenticator.new "i" "s" "o" "b" = .ok a) :=
  ⟨(c9_new_validation "" "s" "o" "b").1 (Or.inl rfl),
   (c9_new_validation "i" "s" "o" "b").2 (by decide) (by decide) (by decide)⟩

/-- C6: whenever the parsed token-exchange body carries a non-empty provider
error field, login fails with a PermissionDenied error carrying the
provider's error description and code, whatever the HTTP status was. -/
theorem c6_provider_error_denied (a : GithubAuthenticator) (env : LoginEnv)
    (status : Nat) (gt : GithubAccessToken)
    (hresp : env.tokenResp = .ok status gt) (herr : gt.error ≠ "") :
    a.login env = .error (.PermissionDenied
      (gt.error_description ++ " (" ++ gt.error ++ ")")) := by
  have hE : gt.error.isEmpty = false := by
    cases hc : gt.error.isEmpty
    · rfl
    · exact absurd ((String.isEmpty_iff gt.error).mp hc) herr
  unfold GithubAuthenticator.login GithubAuthenticator.loginWithTrace
  rw [hresp]
  simp [hE]

/-- C6 witness: the body with error field bad_verification_code and no
description, returned with HTTP status 400, yields the permission-denied
error carrying that code. -/
theorem c6_provider_error_denied_witness :
    GithubAuthenticator.login
      { org := "myorg", client_id := "cid", client_secret := "sec",
        url := "https://github.com", api_url := "https://api.github.com",
        base_url := "https://blog.example" }
      { tokenResp := .ok 400 ⟨"", "bad_verification_code", ""⟩,
        userResp := .sendErr "unused", orgsResp := .sendErr "unused",
        saveResult := .error (.ConnectionError "unused") } =
    .error (.PermissionDenied ("" ++ " (" ++ "bad_verification_code" ++ ")")) :=
  c6_provider_error_denied _ _ 400 _ rfl (by decide)

/-- C2: when the three provider steps all succeed but the configured
organization is not among the fetched memberships, login fails with the
PermissionDenied error naming that organization and the store save is never
invoked (the trace flag is false), so no session token is minted. -/
theorem c2_org_gate_no_save (a : GithubAuthenticator) (env : LoginEnv)
    (st su so : Nat) (gt : GithubAccessToken) (gu : GithubUser) (go : GithubOrgs)
    (h1 : env.tokenResp = .ok st gt) (h2 : gt.error = "")
    (h3 : gt.access_token ≠ "") (h4 : env.userResp = .ok su gu)
    (h5 : env.orgsResp = .ok so go)
    (h6 : ∀ o ∈ go.orgs, o.login ≠ a.org) :
    a.loginWithTrace env =
      (.error (.PermissionDenied ("not a member of " ++ a.org)), false) := by
  have hE : gt.error.isEmpty = true := by rw [h2]; rfl
  have hA : gt.access_token.isEmpty = false := by
    cases hc : gt.access_token.isEmpty
    · rfl
    · exact absurd ((String.isEmpty_iff gt.access_token).mp hc) h3
  have hO : go.orgs.any (fun o => o.login == a.org) = false := by
    rw [List.any_eq_false]
    intro o ho
    simpa using h6 o ho
  unfold GithubAuthenticator.loginWithTrace
  rw [h1, h4, h5]
  simp [hE, hA, hO]

/-- C2 witness: with memberships consisting only of the organization other,
the gate rejects the attempt against target organization myorg without
touching the store. -/
theorem c2_org_gate_no_save_witness :
    GithubAuthenticator.loginWithTrace
      { org := "myorg", client_id := "cid", client_secret := "sec",
        url := "https://github.com", api_url := "https://api.github.com",
        base_url := "https://blog.example" }
      { tokenResp := .ok 200 ⟨"tok_abc", "", ""⟩,
        userResp := .ok 200 ⟨"octocat", 123456, "The Octocat", "https://example/a.png"⟩,
        orgsResp := .ok 200 ⟨[⟨"other"⟩]⟩,
        saveResult := .ok "should-not-be-used" } =
      (.error (.PermissionDenied ("not a member of " ++ "myorg")), false) :=
  c2_org_gate_no_save _ _ 200 200 200 _ _ _ rfl rfl (by decide) rfl rfl
    (by decide)

/-- Helper Bool evaluation of String.isEmpty at the empty-string literal. -/
theorem string_empty_isEmpty : "".isEmpty = true := rfl

/-- C1 counterexample: login succeeding is not equivalent to the five
provider-side conditions alone, because a failing store save also aborts the
attempt; at c1env all provider conditions hold yet login returns an error. -/
theorem c1_counterexample :
    ¬ (∀ (a : GithubAuthenticator) (env : LoginEnv),
        (∃ s, a.login env = .ok s) ↔ providerStepsSucceed a env) := by
  intro h
  rcases (h c1auth c1env).mpr
    ⟨⟨200, ⟨"tok_abc", "", ""⟩, rfl, rfl, by decide⟩,
     ⟨200, ⟨"octocat", 123456, "The Octocat", "https://example/a.png"⟩, rfl⟩,
     ⟨200, ⟨[⟨"myorg"⟩]⟩, rfl, ⟨"myorg"⟩, by decide, rfl⟩⟩ with ⟨s, hs⟩
  have hc : c1auth.login c1env =
      .error (.ConnectionError "connection error: redis down") := rfl
  rw [hc] at hs
  exact Except.noConfusion hs

/-- C1 amended: login returns a successful Session exactly when the five
provider-side conditions hold AND the delegated store save succeeds; any
failure, including a store failure, aborts the attempt with an error. -/
theorem c1_amended (a : GithubAuthenticator) (env : LoginEnv) :
    (∃ s, a.login env = .ok s) ↔
      (providerStepsSucceed a env ∧ ∃ t, env.saveResult = .ok t) := by
  unfold GithubAuthenticator.login GithubAuthenticator.loginWithTrace
    providerStepsSucceed
  rcases htok : env.tokenResp with e | e | ⟨st, gt⟩
  · simp
  · simp
  · by_cases hE : gt.error = ""
    · have hEb : gt.error.isEmpty = true := by rw [hE]; rfl
      by_cases hA : gt.access_token = ""
      · have hAb : gt.access_token.isEmpty = true := by rw [hA]; rfl
        simp [hEb, hAb, hA, string_empty_isEmpty]
      · have hAb : gt.access_token.isEmpty = false := by
          cases hc : gt.access_token.isEmpty
          · rfl
          · exact absurd ((String.isEmpty_iff gt.access_token).mp hc) hA
        rcases huser : env.userResp with e | e | ⟨su, gu⟩
        · simp [hEb, hAb, hE, hA, and_assoc, string_empty_isEmpty]
        · simp [hEb, hAb, hE, hA, and_assoc, string_empty_isEmpty]
        · rcases horgs : env.orgsResp with e | e | ⟨so, go⟩
          · simp [hEb, hAb, hE, hA, and_assoc, string_empty_isEmpty]
          · simp [hEb, hAb, hE, hA, and_assoc, string_empty_isEmpty]
          · by_cases hO : ∃ o ∈ go.orgs, o.login = a.org
            · have hOb : go.orgs.any (fun o => o.login == a.org) = true := by
                rw [List.any_eq_true]
                rcases hO with ⟨o, ho, he⟩
                exact ⟨o, ho, by simp [he]⟩
              rcases hsave : env.saveResult with err | t
              · simp [hEb, hAb, hE, hA, hOb, hO, and_assoc, string_empty_isEmpty]
              · simp [hEb, hAb, hE, hA, hOb, hO, and_assoc, string_empty_isEmpty]
            · have hOb : go.orgs.any (fun o => o.login == a.org) = false := by
                rw [List.any_eq_false]
                intro o ho hbe
                exact hO ⟨o, ho, by simpa using hbe⟩
              simp [hEb, hAb, hE, hA, hOb, hO, and_assoc, string_empty_isEmpty]
    · have hEb : gt.error.isEmpty = false := by
        cases hc : gt.error.isEmpty
        · rfl
        · exact absurd ((String.isEmpty_iff gt.error).mp hc) hE
      simp [hEb, hE]

/-- C1 amended witness: with every provider step succeeding, the user a
member and a working store, login produces a Session. -/
theorem c1_amended_witness :
    ∃ s, GithubAuthenticator.login c1auth
      { tokenResp := .ok 200 ⟨"tok_abc", "", ""⟩,
        userResp := .ok 200 ⟨"octocat", 123456, "The Octocat", "https://example/a.png"⟩,
        orgsResp := .ok 200 ⟨[⟨"myorg"⟩]⟩,
        saveResult := .ok "fresh-token" } = .ok s :=
  (c1_amended c1auth _).mpr
    ⟨⟨⟨200, ⟨"tok_abc", "", ""⟩, rfl, rfl, by decide⟩,
      ⟨200, ⟨"octocat", 123456, "The Octocat", "https://example/a.png"⟩, rfl⟩,
      ⟨200, ⟨[⟨"myorg"⟩]⟩, rfl, ⟨"myorg"⟩, by decide, rfl⟩⟩,
     "fresh-token", rfl⟩

/-- Digit characters produced at base 10 are decimal digit characters. -/
theorem digitChar_isDigit {d : Nat} (h : d < 10) :
    (Nat.digitChar d).isDigit = true := by
  interval_cases d <;> decide

/-- Digit characters are never the pipe delimiter. -/
theorem digitChar_ne_pipe {d : Nat} (h : d < 10) : Nat.digitChar d ≠ '|' := by
  interval_cases d <;> decide

/-- Code point of a base-10 digit character. -/
theorem digitChar_toNat {d : Nat} (h : d < 10) :
    (Nat.digitChar d).toNat = 48 + d := by
  interval_cases d <;> decide

/-- The decimal digit list of a number is never empty. -/
theorem digitsSpec_ne_nil (n : Nat) : digitsSpec n ≠ [] := by
  rw [digitsSpec]
  split <;> simp

/-- Every character of the decimal digit list is a decimal digit. -/
theorem digitsSpec_all_digit (n : Nat) :
    ∀ c ∈ digitsSpec n, c.isDigit = true := by
  induction n using Nat.strong_induction_on with
  | _ n ih =>
    rw [digitsSpec]
    split
    · intro c hc
      rw [List.mem_singleton] at hc
      subst hc
      exact digitChar_isDigit (by omega)
    · rename_i h0
      intro c hc
      rcases List.mem_append.mp hc with h1 | h1
      · exact ih (n / 10) (by omega) c h1
      · rw [List.mem_singleton] at h1
        subst h1
        exact digitChar_isDigit (by omega)

/-- The fuel-based digit renderer of the core library agrees with the
specification-level digit list whenever the fuel is sufficient. -/
theorem toDigitsCore_eq_digitsSpec :
    ∀ (fuel n : Nat) (acc : List Char), n < fuel →
      Nat.toDigitsCore 10 fuel n acc = digitsSpec n ++ acc := by
  intro fuel
  induction fuel with
  | zero => intro n acc h; omega
  | succ f ih =>
    intro n acc h
    show (if n / 10 = 0 then Nat.digitChar (n % 10) :: acc
      else Nat.toDigitsCore 10 f (n / 10) (Nat.digitChar (n % 10) :: acc)) =
        digitsSpec n ++ acc
    by_cases h0 : n / 10 = 0
    · rw [if_pos h0, digitsSpec, dif_pos h0]
      rfl
    · rw [if_neg h0, ih (n / 10) _ (by omega)]
      conv_rhs => rw [digitsSpec]
      rw [dif_neg h0, List.append_assoc]
      rfl

/-- The character data of Nat.repr is the specification-level decimal digit
list. -/
theorem repr_data (n : Nat) : (Nat.repr n).data = digitsSpec n := by
  show (Nat.toDigits 10 n).asString.data = digitsSpec n
  unfold Nat.toDigits
  rw [toDigitsCore_eq_digitsSpec (n + 1) n [] (by omega)]
  simp [List.asString]

/-- The decimal rendering of a natural number never contains the pipe
delimiter. -/
theorem repr_no_pipe (n : Nat) : '|' ∉ (Nat.repr n).data := by
  rw [repr_data]
  intro h
  exact absurd (digitsSpec_all_digit n '|' h) (by decide)

/-- Parsing distributes over list append. -/
theorem parseDigitsAux_append (xs ys : List Char) (acc : Nat) :
    parseDigitsAux (xs ++ ys) acc =
      match parseDigitsAux xs acc with
      | none => none
      | some a => parseDigitsAux ys a := by
  induction xs generalizing acc with
  | nil => rfl
  | cons c cs ih =>
    show (if c.isDigit then parseDigitsAux (cs ++ ys) (acc * 10 + (c.toNat - 48))
        else none) = _
    by_cases h : c.isDigit = true
    · rw [if_pos h, ih]
      show _ = (match (if c.isDigit then parseDigitsAux cs (acc * 10 + (c.toNat - 48))
          else none) with
        | none => none
        | some a => parseDigitsAux ys a)
      rw [if_pos h]
    · rw [if_neg h]
      show (none : Option Nat) = (match (if c.isDigit then parseDigitsAux cs
          (acc * 10 + (c.toNat - 48)) else none) with
        | none => none
        | some a => parseDigitsAux ys a)
      rw [if_neg h]

/-- Parsing the specification-level digit list recovers the number, below
any accumulated prefix. -/
theorem parseDigitsAux_digitsSpec (n : Nat) :
    ∀ acc, parseDigitsAux (digitsSpec n) acc =
      some (acc * 10 ^ (digitsSpec n).length + n) := by
  induction n using Nat.strong_induction_on with
  | _ n ih =>
    intro acc
    rw [digitsSpec]
    split
    · rename_i h0
      have hm : n % 10 < 10 := by omega
      show (if (Nat.digitChar (n % 10)).isDigit then
          parseDigitsAux [] (acc * 10 + ((Nat.digitChar (n % 10)).toNat - 48))
        else none) = _
      rw [if_pos (digitChar_isDigit hm), digitChar_toNat hm]
      show some (acc * 10 + (48 + n % 10 - 48)) = some (acc * 10 ^ 1 + n)
      congr 1
      omega
    · rename_i h0
      have hm : n % 10 < 10 := by omega
      rw [parseDigitsAux_append, ih (n / 10) (by omega) acc]
      show (if (Nat.digitChar (n % 10)).isDigit then
          parseDigitsAux [] ((acc * 10 ^ (digitsSpec (n / 10)).length + n / 10) * 10
            + ((Nat.digitChar (n % 10)).toNat - 48))
        else none) = _
      rw [if_pos (digitChar_isDigit hm), digitChar_toNat hm]
      show some ((acc * 10 ^ (digitsSpec (n / 10)).length + n / 10) * 10
          + (48 + n % 10 - 48)) =
        some (acc * 10 ^ (digitsSpec (n / 10) ++ [Nat.digitChar (n % 10)]).length + n)
      rw [List.length_append, List.length_singleton, pow_succ]
      congr 1
      have hdm : 10 * (n / 10) + n % 10 = n := Nat.div_add_mod n 10
      set P := 10 ^ (digitsSpec (n / 10)).length with hP
      have hexp : (acc * P + n / 10) * 10 + (48 + n % 10 - 48) =
          acc * (P * 10) + (10 * (n / 10) + n % 10) := by
        have h48 : 48 + n % 10 - 48 = n % 10 := by omega
        rw [h48]
        ring
      rw [hexp, hdm]

/-- Rebuilding a string from its character data is the identity. -/
theorem string_mk_data (s : String) : String.mk s.data = s := rfl

/-- Model of str::parse::<u64> recovers any u64-ranged number from its
decimal rendering. -/
theorem parseU64_repr (n : Nat) (h : n < 18446744073709551616) :
    parseU64 (String.mk (Nat.repr n).data) = some n := by
  unfold parseU64
  rw [show (String.mk (Nat.repr n).data).data = (Nat.repr n).data from rfl,
    repr_data]
  rcases hds : digitsSpec n with _ | ⟨c, rest⟩
  · exact absurd hds (digitsSpec_ne_nil n)
  · have hcd : c.isDigit = true := by
      apply digitsSpec_all_digit n
      rw [hds]
      exact List.mem_cons_self c rest
    have hcp : ¬(c = '+') := by
      intro hc
      rw [hc] at hcd
      exact absurd hcd (by decide)
    simp only [if_neg hcp]
    have hfull : parseDigitsAux (c :: rest) 0 = some n := by
      rw [← hds, parseDigitsAux_digitsSpec n 0]
      simp
    rw [hfull]
    simp [h]

/-- breakAtChar finds nothing in a list not containing the delimiter. -/
theorem breakAtChar_not_mem (c : Char) (xs : List Char) (h : c ∉ xs) :
    breakAtChar c xs = none := by
  induction xs with
  | nil => rfl
  | cons x rest ih =>
    show (if x = c then some ([], rest)
      else match breakAtChar c rest with
        | none => none
        | some (pre, post) => some (x :: pre, post)) = none
    rw [if_neg (by intro hx; exact h (hx ▸ List.mem_cons_self x rest)),
      ih (fun hm => h (List.mem_cons_of_mem x hm))]

/-- breakAtChar splits exactly at the first delimiter occurrence. -/
theorem breakAtChar_append (c : Char) (xs ys : List Char) (h : c ∉ xs) :
    breakAtChar c (xs ++ c :: ys) = some (xs, ys) := by
  induction xs with
  | nil =>
    show (if c = c then some (([] : List Char), ys) else _) = _
    rw [if_pos rfl]
  | cons x rest ih =>
    show (if x = c then some ([], rest ++ c :: ys)
      else match breakAtChar c (rest ++ c :: ys) with
        | none => none
        | some (pre, post) => some (x :: pre, post)) = some (x :: rest, ys)
    rw [if_neg (by intro hx; exact h (hx ▸ List.mem_cons_self x rest)),
      ih (fun hm => h (List.mem_cons_of_mem x hm))]

/-- One unfolding step of rustSplitn at a piece budget of at least two. -/
theorem rustSplitn_step (m : Nat) (hm : m ≠ 0) (c : Char) (s : List Char) :
    rustSplitn (m + 1) c s =
      match breakAtChar c s with
      | none => [s]
      | some (pre, post) => pre :: rustSplitn m c post := by
  show (if m = 0 then [s] else _) = _
  rw [if_neg hm]

/-- rustSplitn with a budget of one piece never splits. -/
theorem rustSplitn_one (c : Char) (s : List Char) : rustSplitn 1 c s = [s] := rfl

/-- splitn(4) over three delimiter-free prefixes recovers the four pieces;
the last piece keeps any further delimiters. -/
theorem rustSplitn_four (l0 l1 l2 l3 : List Char)
    (h0 : '|' ∉ l0) (h1 : '|' ∉ l1) (h2 : '|' ∉ l2) :
    rustSplitn 4 '|' (l0 ++ '|' :: (l1 ++ '|' :: (l2 ++ '|' :: l3))) =
      [l0, l1, l2, l3] := by
  have e0 := breakAtChar_append '|' l0 (l1 ++ '|' :: (l2 ++ '|' :: l3)) h0
  have e1 := breakAtChar_append '|' l1 (l2 ++ '|' :: l3) h1
  have e2 := breakAtChar_append '|' l2 l3 h2
  rw [show (4 : Nat) = 3 + 1 from rfl, rustSplitn_step 3 (by decide), e0]
  simp only []
  rw [show (3 : Nat) = 2 + 1 from rfl, rustSplitn_step 2 (by decide), e1]
  simp only []
  rw [show (2 : Nat) = 1 + 1 from rfl, rustSplitn_step 1 (by decide), e2]
  simp only []
  rw [rustSplitn_one]

/-- Character data of the pipe-joined serialization of a User. -/
theorem serializeUser_data (u : User) :
    (serializeUser u).data =
      (Nat.repr u.id).data ++ '|' :: (u.login.data ++ '|' ::
        (u.avatar_url.data ++ '|' :: u.name.data)) := by
  show ((((((Nat.repr u.id) ++ "|") ++ u.login) ++ "|") ++ u.avatar_url)
      ++ "|" ++ u.name).data = _
  simp only [String.data_append, show ("|" : String).data = ['|'] from rfl,
    List.append_assoc, List.singleton_append, List.cons_append,
    List.nil_append]

/-- Conditional round trip of the pipe serialization: recovered exactly when
the login and avatar fields are delimiter-free and the id is in u64 range;
the trailing name field may contain delimiters. -/
theorem deserializeUser_serializeUser (u : User)
    (hid : u.id < 18446744073709551616)
    (hl : '|' ∉ u.login.data) (ha : '|' ∉ u.avatar_url.data) :
    deserializeUser (serializeUser u) = .ok u := by
  unfold deserializeUser
  rw [serializeUser_data,
    rustSplitn_four _ _ _ _ (repr_no_pipe u.id) hl ha]
  simp only []
  rw [parseU64_repr u.id hid]

/-- A key just SET is bound to its payload, with no TTL. -/
theorem storeLookup_storeSet (st : Store) (k d : String) :
    storeLookup (storeSet st k d) k = some { data := d, ttl := none } := by
  induction st with
  | nil => simp [storeSet, storeLookup]
  | cons p rest ih =>
    obtain ⟨k2, r⟩ := p
    by_cases h : k2 = k
    · simp [storeSet, storeLookup, h]
    · simp [storeSet, storeLookup, h, ih]

/-- EXPIRE rewrites the TTL of the record under the key, when present. -/
theorem storeLookup_storeExpire (st : Store) (k : String) (t : Int) :
    storeLookup (storeExpire st k t) k =
      (storeLookup st k).map (fun r => { data := r.data, ttl := some t }) := by
  induction st with
  | nil => simp [storeExpire, storeLookup]
  | cons p rest ih =>
    obtain ⟨k2, r⟩ := p
    by_cases h : k2 = k
    · simp [storeExpire, storeLookup, h]
    · simp [storeExpire, storeLookup, h, ih]

/-- A stored payload whose pipe-split piece count is not four deserializes
to the field-count serialization error, not to a crash. -/
theorem deserializeUser_wrong_count (s : String)
    (h : (rustSplitn 4 '|' s.data).length ≠ 4) :
    deserializeUser s = .error (.SerializationError "Invalid data format") := by
  rcases hl : rustSplitn 4 '|' s.data with
    _ | ⟨a, _ | ⟨b, _ | ⟨c, _ | ⟨d, _ | ⟨e, tl⟩⟩⟩⟩⟩ <;>
    simp_all [deserializeUser]

/-- C7: for every stored value under a token whose pipe-split segment count
is not exactly four, RedisRepo::get returns the field-count
SerializationError; the malformed-data branch is an error return, never a
panic, and the embedded get function is total over arbitrary stored
strings. -/
theorem c7_malformed_record (env : GetEnv) (st : Store) (token : String)
    (r : StoredRecord) (hp : env.poolErr = none) (hg : env.getErr = none)
    (hr : storeLookup st token = some r)
    (hc : (rustSplitn 4 '|' r.data.data).length ≠ 4) :
    RedisRepo.get env st token =
      .error (.SerializationError "Invalid data format") := by
  unfold RedisRepo.get
  rw [hp, hg, hr]
  exact deserializeUser_wrong_count _ hc

/-- C7 witness: a three-piece stored value produces the field-count error at
a concrete store. -/
theorem c7_malformed_record_witness :
    RedisRepo.get { poolErr := none, getErr := none }
      [("tok-1", { data := "not|enough|pieces", ttl := none })] "tok-1" =
      .error (.SerializationError "Invalid data format") :=
  c7_malformed_record { poolErr := none, getErr := none } _ "tok-1"
    { data := "not|enough|pieces", ttl := none } rfl rfl rfl (by decide)

/-- C10: the conditional round trip through the Redis store: when the login
and avatar_url fields are free of the pipe delimiter and the id is in u64
range, a healthy save followed by get under the returned token recovers the
User exactly, even when the name field contains pipes, because name is
serialized last and splitn(4) keeps the remainder in the fourth piece. -/
theorem c10_conditional_roundtrip (r : RedisRepo) (u : User) (st : Store)
    (senv : SaveEnv) (genv : GetEnv)
    (hsp : senv.poolErr = none) (hss : senv.setErr = none)
    (hse : senv.expireErr = none)
    (hgp : genv.poolErr = none) (hgg : genv.getErr = none)
    (hid : u.id < 18446744073709551616)
    (hl : '|' ∉ u.login.data) (ha : '|' ∉ u.avatar_url.data) :
    RedisRepo.get genv (RedisRepo.save r senv u st).2 senv.token = .ok u := by
  unfold RedisRepo.save RedisRepo.get
  rw [hsp, hss, hse, hgp, hgg]
  simp only []
  rw [storeLookup_storeExpire, storeLookup_storeSet]
  simp only [Option.map]
  exact deserializeUser_serializeUser u hid hl ha

/-- C10 witness: a display name containing pipes survives the round trip
unchanged. -/
theorem c10_conditional_roundtrip_witness :
    RedisRepo.get { poolErr := none, getErr := none }
      (RedisRepo.save { ttl := 3600 }
        { poolErr := none, token := "tok-1", setErr := none, expireErr := none }
        { id := 7, name := "Jo|hn Doe", avatar_url := "https://a/x.png",
          login := "johnd" } []).2 "tok-1" =
      .ok { id := 7, name := "Jo|hn Doe", avatar_url := "https://a/x.png",
            login := "johnd" } :=
  c10_conditional_roundtrip { ttl := 3600 } _ []
    { poolErr := none, token := "tok-1", setErr := none, expireErr := none }
    { poolErr := none, getErr := none } rfl rfl rfl rfl rfl (by decide)
    (by decide) (by decide)

/-- C3: the unconditional round-trip law fails on the source encoding: a
User whose login contains the pipe delimiter is recovered with permuted,
truncated fields.  At login jo|hn the serialized record
1|jo|hn|http://x|Jo splits as 1, jo, hn, http://x|Jo, so get returns a
different User; the code evaluates to exactly that wrong value. -/
theorem c3_roundtrip_violation :
    RedisRepo.get { poolErr := none, getErr := none }
      (RedisRepo.save { ttl := 3600 }
        { poolErr := none, token := "tok-1", setErr := none, expireErr := none }
        { id := 1, name := "Jo", avatar_url := "http://x", login := "jo|hn" }
        []).2 "tok-1" =
      .ok { id := 1, name := "http://x|Jo", avatar_url := "hn", login := "jo" } ∧
    ({ id := 1, name := "http://x|Jo", avatar_url := "hn", login := "jo" } : User) ≠
      { id := 1, name := "Jo", avatar_url := "http://x", login := "jo|hn" } := by
  constructor
  · rfl
  · decide

/-- C4 counterexample: save is not atomic in the source: when the SET
command succeeds but the following EXPIRE command fails, save returns a
connection error, yet the backing store has been changed and now holds the
record with no TTL at all — falsifying the claim that an erroring save
leaves the store unchanged and that every written record carries the
configured TTL. -/
theorem c4_counterexample :
    (RedisRepo.save { ttl := 3600 }
      { poolErr := none, token := "tok-1", setErr := none,
        expireErr := some "connection reset" }
      c4user []).1 = .error (.ConnectionError "connection reset") ∧
    (RedisRepo.save { ttl := 3600 }
      { poolErr := none, token := "tok-1", setErr := none,
        expireErr := some "connection reset" }
      c4user []).2 ≠ ([] : Store) ∧
    storeLookup (RedisRepo.save { ttl := 3600 }
      { poolErr := none, token := "tok-1", setErr := none,
        expireErr := some "connection reset" }
      c4user []).2 "tok-1" =
      some { data := serializeUser c4user, ttl := none } := by
  refine ⟨rfl, ?_, rfl⟩
  decide

/-- C4 amended: characterization of the save transition: failures acquiring
a pool connection or at the SET command leave the store unchanged, and a
fully successful save binds the fresh token to the serialized User with the
configured TTL; but when SET succeeds and EXPIRE then fails, save returns a
connection error while the record remains stored without any TTL. -/
theorem c4_amended (r : RedisRepo) (env : SaveEnv) (u : User) (st : Store) :
    (∀ e, env.poolErr = some e →
      RedisRepo.save r env u st = (.error (.ConnectionError e), st)) ∧
    (∀ e, env.poolErr = none → env.setErr = some e →
      RedisRepo.save r env u st = (.error (.ConnectionError e), st)) ∧
    (∀ e, env.poolErr = none → env.setErr = none → env.expireErr = some e →
      RedisRepo.save r env u st =
        (.error (.ConnectionError e), storeSet st env.token (serializeUser u)) ∧
      storeLookup (RedisRepo.save r env u st).2 env.token =
        some { data := serializeUser u, ttl := none }) ∧
    (env.poolErr = none → env.setErr = none → env.expireErr = none →
      RedisRepo.save r env u st =
        (.ok env.token,
          storeExpire (storeSet st env.token (serializeUser u)) env.token r.ttl) ∧
      storeLookup (RedisRepo.save r env u st).2 env.token =
        some { data := serializeUser u, ttl := some r.ttl }) := by
  refine ⟨?_, ?_, ?_, ?_⟩
  · intro e he
    unfold RedisRepo.save
    rw [he]
  · intro e hp he
    unfold RedisRepo.save
    rw [hp, he]
  · intro e hp hs he
    unfold RedisRepo.save
    rw [hp, hs, he]
    exact ⟨rfl, storeLookup_storeSet st env.token (serializeUser u)⟩
  · intro hp hs he
    unfold RedisRepo.save
    rw [hp, hs, he]
    refine ⟨rfl, ?_⟩
    rw [storeLookup_storeExpire, storeLookup_storeSet]
    rfl

/-- C4 amended witness: the fully successful branch at a concrete store
leaves the token bound to the serialized User with the configured TTL. -/
theorem c4_amended_witness :
    RedisRepo.save { ttl := 3600 }
      { poolErr := none, token := "tok-1", setErr := none, expireErr := none }
      c4user [] =
      (.ok "tok-1",
        storeExpire (storeSet [] "tok-1" (serializeUser c4user)) "tok-1" 3600) ∧
    storeLookup (RedisRepo.save { ttl := 3600 }
      { poolErr := none, token := "tok-1", setErr := none, expireErr := none }
      c4user []).2 "tok-1" =
      some { data := serializeUser c4user, ttl := some 3600 } :=
  (c4_amended { ttl := 3600 }
    { poolErr := none, token := "tok-1", setErr := none, expireErr := none }
    c4user []).2.2.2 rfl rfl rfl

/-- C5 counterexample: the not-found class is conflated with GET-command
transport failures: a transport failure during GET on a present, well-formed
record yields exactly the same PermissionDenied no session error that a
missing key yields, falsifying the claim that the class returned for
missing tokens is never produced by transport failures. -/
theorem c5_counterexample :
    RedisRepo.get { poolErr := none, getErr := some "broken pipe" }
      [("tok-1", { data := "1|jo|http://x|Jo", ttl := some 3600 })] "tok-1" =
      .error (.PermissionDenied "no session") ∧
    RedisRepo.get { poolErr := none, getErr := none } ([] : Store) "tok-1" =
      .error (.PermissionDenied "no session") :=
  ⟨rfl, rfl⟩

/-- C5 amended: a token absent from the store (TTL expiry surfaces as
absence) yields the PermissionDenied no session error, a class distinct
from ConnectionError, and pool-acquisition failures yield ConnectionError;
however a transport failure of the GET command itself is mapped by the
source to the same PermissionDenied no session, so the not-found class is
not distinguishable from GET-command transport failures. -/
theorem c5_amended (st : Store) (token : String) :
    (∀ env : GetEnv, env.poolErr = none → env.getErr = none →
      storeLookup st token = none →
      RedisRepo.get env st token = .error (.PermissionDenied "no session")) ∧
    (∀ (env : GetEnv) (e : String), env.poolErr = some e →
      RedisRepo.get env st token = .error (.ConnectionError e)) ∧
    (∀ (env : GetEnv) (e : String), env.poolErr = none → env.getErr = some e →
      RedisRepo.get env st token = .error (.PermissionDenied "no session")) := by
  refine ⟨?_, ?_, ?_⟩
  · intro env hp hg hl
    unfold RedisRepo.get
    rw [hp, hg, hl]
  · intro env e hp
    unfold RedisRepo.get
    rw [hp]
  · intro env e hp hg
    unfold RedisRepo.get
    rw [hp, hg]

/-- C5 amended witness: a missing token on a healthy connection yields the
no-session permission-denied error at a concrete store. -/
theorem c5_amended_witness :
    RedisRepo.get { poolErr := none, getErr := none }
      [("other", { data := "x", ttl := none })] "tok-1" =
      .error (.PermissionDenied "no session") :=
  (c5_amended [("other", { data := "x", ttl := none })] "tok-1").1
    { poolErr := none, getErr := none } rfl rfl rfl
